import Mathlib

/-!
Shallow embedding of `src/main.py` of the Smart Hydration & Nutrition
Advisor service: the `/calculate` FastAPI endpoint, its profile
validation, the water-intake formula, the condition→instruction table,
the prompt template, and the parsing of the collaborator (Gemini) reply.

Modelling conventions:
* Python `float` values carried by the profile and the response are
  modelled as rationals (`ℚ`); the code performs a single exact
  multiplication on them, no float-specific behaviour is claimed.
* The external collaborator call `model.generate_content_async(prompt)`
  together with `json.loads(response.text)` is modelled by the input
  `CollabResult`: either the call raised an exception, or it returned
  text whose JSON parse result is given (`none` when `json.loads`
  raises `JSONDecodeError`, i.e. the text is not valid JSON).
* FastAPI/pydantic request validation (the `Literal[...]` constraint on
  `disease`) is modelled by the membership test performed before the
  handler body runs; on failure FastAPI answers with a 422 client error
  and the handler body is never entered.
* The second component of the results below counts how many times the
  collaborator was invoked while serving the request.
-/

/-- The seven values accepted by the `Literal[...]` annotation on the
`disease` field of `UserProfile` in `src/main.py`. -/
def validDiseases : List String :=
  ["diabetes", "bp", "thyroid", "pcos", "heart", "anemia", "none"]

/-- The request body of `POST /calculate` (`UserProfile` in
`src/main.py`).  `disease` is kept as a raw string; the pydantic
`Literal` constraint is the membership test `disease ∈ validDiseases`,
applied by FastAPI before the handler runs. -/
structure UserProfile where
  age : Int
  weight : ℚ
  activity_level : String
  dietary_preferences : String
  disease : String
  gender : String
deriving DecidableEq

/-- The response body of `POST /calculate` (`Recommendations` in
`src/main.py`). -/
structure Recommendations where
  daily_water_ml : ℚ
  recommended_meals : List String
  reminders : List String
deriving DecidableEq

/-- Values producible by Python's `json.loads` (numeric leaves are
modelled as integers; no claim depends on numeric JSON content).
Objects are association lists in textual order. -/
inductive Json where
  | jnull : Json
  | jbool : Bool → Json
  | jnum : Int → Json
  | jstr : String → Json
  | jarr : List Json → Json
  | jobj : List (String × Json) → Json

/-- Whether a JSON value is an object (a Python `dict` after
`json.loads`). -/
def Json.isObj : Json → Bool
  | .jobj _ => true
  | _ => false

/-- Lookup in a Python dict built by `json.loads` from an object's
key/value list: a later duplicate key overwrites an earlier one. -/
def jsonGet (kvs : List (String × Json)) (k : String) : Option Json :=
  kvs.foldl (fun acc kv => if kv.1 == k then some kv.2 else acc) none

/-- The Python type name of a parsed JSON value, as it appears in the
`AttributeError` raised by `value.get(...)` on a non-dict. -/
def pyTypeName : Json → String
  | .jnull => "NoneType"
  | .jbool _ => "bool"
  | .jnum _ => "int"
  | .jstr _ => "str"
  | .jarr _ => "list"
  | .jobj _ => "dict"

/-- The message of the `AttributeError` raised by `x.get(key, default)`
when `x` is not a dict, e.g. `'list' object has no attribute 'get'`. -/
def pyAttrErrorMsg (j : Json) : String :=
  "\x27" ++ pyTypeName j ++ "\x27 object has no attribute \x27get\x27"

/-- pydantic validation of a `list[str]` field of `Recommendations`:
succeeds exactly on a list whose members are all strings. -/
def strListOfJson : List Json → Option (List String)
  | [] => some []
  | .jstr s :: rest => (strListOfJson rest).map (fun l => s :: l)
  | _ :: _ => none

/-- pydantic validation of a `list[str]` field of `Recommendations`
applied to a parsed JSON value: only a JSON array of strings passes. -/
def asStrList : Json → Option (List String)
  | .jarr xs => strListOfJson xs
  | _ => none

/-- Outcome of `await model.generate_content_async(prompt)` followed by
`json.loads(response.text)`:
* `raised msg` — the collaborator call (or the `.text` access) raised;
* `text none` — the call returned text that is not valid JSON, so
  `json.loads` raises `json.JSONDecodeError`;
* `text (some j)` — the call returned text parsing to the JSON value
  `j`. -/
inductive CollabResult where
  | raised : String → CollabResult
  | text : Option Json → CollabResult

/-- Result of a `POST /calculate` request as seen by the caller:
* `ok r` — HTTP 200 with body `r`;
* `validationError s` — client error `s` (= 422) produced by
  FastAPI/pydantic before the handler body runs;
* `httpError s d` — `HTTPException(status_code := s, detail := d)`
  raised inside the handler;
* `uncaught` — an exception escaped the handler (a pydantic
  `ValidationError` from the `Recommendations(...)` constructor). -/
inductive EndpointResult where
  | ok : Recommendations → EndpointResult
  | validationError : Nat → EndpointResult
  | httpError : Nat → String → EndpointResult
  | uncaught : EndpointResult
deriving DecidableEq

/-- The condition→instruction table `disease_instructions` of
`src/main.py`, in source order. -/
def disease_instructions : List (String × String) :=
  [("diabetes", "low sugar, low glycemic index meals"),
   ("bp", "low sodium meals"),
   ("thyroid", "meals that support thyroid function, considering iodine levels"),
   ("pcos", "low carb, high-protein, insulin-friendly meals"),
   ("anemia", "iron-rich meals"),
   ("heart", "low saturated fat and low cholesterol meals"),
   ("none", "a balanced and healthy diet")]

/-- Lookup in the (duplicate-free) `disease_instructions` dict. -/
def dictGet (kvs : List (String × String)) (k : String) : Option String :=
  (kvs.find? (fun kv => kv.1 == k)).map (fun kv => kv.2)

/-- The Python expression
`disease_instructions.get(profile.disease, "a balanced diet")`. -/
def disease_prompt_part (d : String) : String :=
  (dictGet disease_instructions d).getD "a balanced diet"

/-- Rendering of the `weight` float inside the f-string.  Python prints
floats like `70.0`; integer-valued rationals get the trailing `.0`,
other rationals use their rational rendering (no claim depends on this
text). -/
def pyFloatStr (q : ℚ) : String :=
  if q.den = 1 then toString q.num ++ ".0" else toString q

/-- The f-string `prompt` built in `calculate_recommendations`
(`src/main.py` lines 81–103), literal text verbatim, interpolations in
source order. -/
def prompt (profile : UserProfile) : String :=
  "\n    As an expert nutritionist, create a personalized, one-day meal and reminder plan for the following user.\n    The response MUST be unique and in JSON format with the specified schema.\n\n    **JSON Schema:**\n    \x7b\n        \"recommended_meals\": [\"meal_1\", \"meal_2\", \"meal_3\"],\n        \"reminders\": [\"reminder_1\", \"reminder_2\", \"reminder_3\"]\n    \x7d\n\n    **User Profile:**\n    - Age: "
    ++ toString profile.age
    ++ "\n    - Weight: "
    ++ pyFloatStr profile.weight
    ++ " kg\n    - Activity Level: "
    ++ profile.activity_level
    ++ "\n    - Gender: "
    ++ profile.gender
    ++ "\n    - Food Preference: "
    ++ profile.dietary_preferences
    ++ "\n    - Health Goal: The user has \x27"
    ++ profile.disease
    ++ "\x27, so the plan must follow \x27"
    ++ disease_prompt_part profile.disease
    ++ "\x27.\n\n    **Instructions:**\n    1. Generate a list of 3 recommended meals (Breakfast, Lunch, Dinner).\n    2. Generate a list of 3 simple, actionable health reminders.\n    3. Return a JSON object with keys \"recommended_meals\" and \"reminders\".\n    "

/-- The body of the handler `calculate_recommendations` of
`src/main.py` (lines 63–121), entered after FastAPI has validated the
profile.  `configured` is `model is not None` (the `GEMINI_API_KEY`
check at startup); `collab` is the outcome of the collaborator call.
Second component: number of collaborator invocations. -/
def calculate_recommendations (configured : Bool) (profile : UserProfile)
    (collab : CollabResult) : EndpointResult × Nat :=
  if configured = false then
    (.httpError 500 "Gemini API is not configured. Please set the GEMINI_API_KEY.", 0)
  else
    let daily_water_ml := profile.weight * 35
    match collab with
    | .raised msg =>
        (.httpError 500 ("Unexpected error from AI model: " ++ msg), 1)
    | .text none =>
        (.httpError 500 "Failed to parse AI recommendations.", 1)
    | .text (some ai_recommendations) =>
        match ai_recommendations with
        | .jobj kvs =>
            let recommended_meals := (jsonGet kvs "recommended_meals").getD (.jarr [])
            let reminders := (jsonGet kvs "reminders").getD (.jarr [])
            match asStrList recommended_meals, asStrList reminders with
            | some ms, some rs =>
                (.ok ⟨daily_water_ml, ms, rs⟩, 1)
            | _, _ => (.uncaught, 1)
        | other =>
            (.httpError 500 ("Unexpected error from AI model: " ++ pyAttrErrorMsg other), 1)

/-- `POST /calculate` as seen by the caller: FastAPI first validates the
body against `UserProfile` (in particular the `Literal` constraint on
`disease`); only a valid body reaches the handler. -/
def post_calculate (configured : Bool) (profile : UserProfile)
    (collab : CollabResult) : EndpointResult × Nat :=
  if profile.disease ∈ validDiseases then
    calculate_recommendations configured profile collab
  else
    (.validationError 422, 0)

/-- A concrete valid profile used by the witnesses below. -/
def sampleProfile : UserProfile :=
  ⟨30, 70, "moderate", "vegetarian", "none", "female"⟩

/-- A concrete profile whose `disease` is outside the recognized
values, hence rejected by FastAPI validation. -/
def invalidProfile : UserProfile :=
  ⟨30, 70, "moderate", "vegetarian", "cancer", "female"⟩

/-- The collaborator reply of the spec's round-trip example:
`{"recommended_meals": ["a","b","c"], "reminders": ["x","y","z"]}`. -/
def exampleReply : List (String × Json) :=
  [("recommended_meals", .jarr [.jstr "a", .jstr "b", .jstr "c"]),
   ("reminders", .jarr [.jstr "x", .jstr "y", .jstr "z"])]

/-- A concrete valid profile with the `pcos` condition. -/
def pcosProfile : UserProfile :=
  ⟨25, 55, "high", "omnivore", "pcos", "male"⟩

lemma strListOfJson_map (l : List String) :
    strListOfJson (l.map Json.jstr) = some l := by
  induction l with
  | nil => rfl
  | cons a t ih => simp [strListOfJson, ih]

lemma asStrList_jarr_map (l : List String) :
    asStrList (.jarr (l.map Json.jstr)) = some l := by
  simp [asStrList, strListOfJson_map]

/-- Inversion: any 200 response of the endpoint carries
`weight * 35` as its water value. -/
lemma post_calculate_ok_water (configured : Bool) (p : UserProfile)
    (collab : CollabResult) (r : Recommendations) (n : ℕ)
    (h : post_calculate configured p collab = (.ok r, n)) :
    r.daily_water_ml = p.weight * 35 := by
  unfold post_calculate calculate_recommendations at h
  simp only [] at h
  split at h
  · split at h
    · exact absurd h (by simp)
    · split at h
      · exact absurd h (by simp)
      · exact absurd h (by simp)
      · split at h
        · split at h
          · obtain ⟨h1, -⟩ := Prod.mk.injEq .. ▸ h
            injection h1 with h1
            rw [← h1]
          · exact absurd h (by simp)
        · exact absurd h (by simp)
  · exact absurd h (by simp)

/-- C1: for every valid profile, the `daily_water_ml` field of a
successful `POST /calculate` response equals the profile's weight
multiplied by 35, exactly — no rounding, unit conversion, or bounds
check, for any rational weight (including non-physical values). -/
theorem daily_water_eq_weight_mul_35 (configured : Bool) (p : UserProfile)
    (collab : CollabResult) (r : Recommendations) (n : ℕ)
    (hp : p.disease ∈ validDiseases)
    (h : post_calculate configured p collab = (.ok r, n)) :
    r.daily_water_ml = p.weight * 35 :=
  post_calculate_ok_water configured p collab r n h

/-- Witness for C1 at a concrete profile (weight 70) and reply. -/
theorem daily_water_eq_weight_mul_35_witness :
    sampleProfile.disease ∈ validDiseases ∧
    post_calculate true sampleProfile (.text (some (.jobj exampleReply))) =
      (.ok ⟨sampleProfile.weight * 35, ["a", "b", "c"], ["x", "y", "z"]⟩, 1) ∧
    (⟨sampleProfile.weight * 35, ["a", "b", "c"], ["x", "y", "z"]⟩ :
        Recommendations).daily_water_ml = sampleProfile.weight * 35 :=
  ⟨by decide, rfl,
   daily_water_eq_weight_mul_35 true sampleProfile (.text (some (.jobj exampleReply)))
     ⟨sampleProfile.weight * 35, ["a", "b", "c"], ["x", "y", "z"]⟩ 1 (by decide) rfl⟩

/-- C2: for every valid profile, when the collaborator's reply parses to
a JSON object binding `recommended_meals` and `reminders` to string
arrays, the endpoint answers 200 with exactly those two sequences, in
order, plus the computed water value. -/
theorem object_with_both_keys_roundtrip (p : UserProfile)
    (kvs : List (String × Json)) (meals rems : List String)
    (hp : p.disease ∈ validDiseases)
    (hm : jsonGet kvs "recommended_meals" = some (.jarr (meals.map Json.jstr)))
    (hr : jsonGet kvs "reminders" = some (.jarr (rems.map Json.jstr))) :
    post_calculate true p (.text (some (.jobj kvs))) =
      (.ok ⟨p.weight * 35, meals, rems⟩, 1) := by
  unfold post_calculate
  rw [if_pos hp]
  unfold calculate_recommendations
  simp only [reduceIte, hm, hr, Option.getD_some, asStrList_jarr_map]
  rfl

/-- Witness for C2 at the spec's example reply
`{"recommended_meals": ["a","b","c"], "reminders": ["x","y","z"]}`. -/
theorem object_with_both_keys_roundtrip_witness :
    sampleProfile.disease ∈ validDiseases ∧
    jsonGet exampleReply "recommended_meals" =
      some (.jarr (["a", "b", "c"].map Json.jstr)) ∧
    jsonGet exampleReply "reminders" =
      some (.jarr (["x", "y", "z"].map Json.jstr)) ∧
    post_calculate true sampleProfile (.text (some (.jobj exampleReply))) =
      (.ok ⟨sampleProfile.weight * 35, ["a", "b", "c"], ["x", "y", "z"]⟩, 1) :=
  ⟨by decide, rfl, rfl,
   object_with_both_keys_roundtrip sampleProfile exampleReply
     ["a", "b", "c"] ["x", "y", "z"] (by decide) rfl rfl⟩

/-- Counterexample to C3: the reply parses as a JSON object with both
expected keys absent, yet the endpoint returns a 200 success (with the
two lists defaulted to empty), not the parse-failure error — `dict.get`
with a default never raises `KeyError`. -/
theorem missing_keys_success_counterexample :
    post_calculate true sampleProfile
        (.text (some (.jobj [("foo", .jstr "bar")]))) =
      (.ok ⟨sampleProfile.weight * 35, [], []⟩, 1) ∧
    (EndpointResult.ok (⟨sampleProfile.weight * 35, [], []⟩ : Recommendations),
        (1 : ℕ)) ≠
      (EndpointResult.httpError 500 "Failed to parse AI recommendations.", 1) :=
  ⟨rfl, by simp⟩

/-- C3 amended: if the reply parses as a JSON object in which both
expected keys are absent, each missing key defaults to an empty list
and the endpoint returns a 200 success; the parse-failure error is not
produced for missing keys. -/
theorem missing_keys_default_to_empty_lists (p : UserProfile)
    (kvs : List (String × Json)) (hp : p.disease ∈ validDiseases)
    (hm : jsonGet kvs "recommended_meals" = none)
    (hr : jsonGet kvs "reminders" = none) :
    post_calculate true p (.text (some (.jobj kvs))) =
      (.ok ⟨p.weight * 35, [], []⟩, 1) := by
  unfold post_calculate
  rw [if_pos hp]
  unfold calculate_recommendations
  simp only [reduceIte, hm, hr, Option.getD_none, asStrList, strListOfJson]
  rfl

/-- Witness for the amended C3 at a concrete keyless object. -/
theorem missing_keys_default_to_empty_lists_witness :
    sampleProfile.disease ∈ validDiseases ∧
    jsonGet [("foo", Json.jstr "bar")] "recommended_meals" = none ∧
    jsonGet [("foo", Json.jstr "bar")] "reminders" = none ∧
    post_calculate true sampleProfile
        (.text (some (.jobj [("foo", .jstr "bar")]))) =
      (.ok ⟨sampleProfile.weight * 35, [], []⟩, 1) :=
  ⟨by decide, rfl, rfl,
   missing_keys_default_to_empty_lists sampleProfile [("foo", .jstr "bar")]
     (by decide) rfl rfl⟩

/-- C4: a request whose `disease` is outside the seven recognized
values is rejected by FastAPI validation with a 422 client error and
the collaborator is never invoked (invocation count 0), whatever the
configuration state and whatever the collaborator would have
answered. -/
theorem invalid_disease_rejected_before_call (configured : Bool)
    (p : UserProfile) (collab : CollabResult)
    (hp : p.disease ∉ validDiseases) :
    post_calculate configured p collab = (.validationError 422, 0) := by
  unfold post_calculate
  rw [if_neg hp]

/-- Witness for C4 at `disease = "cancer"`. -/
theorem invalid_disease_rejected_before_call_witness :
    invalidProfile.disease ∉ validDiseases ∧
    post_calculate true invalidProfile (.text (some (.jobj exampleReply))) =
      (.validationError 422, 0) :=
  ⟨by decide,
   invalid_disease_rejected_before_call true invalidProfile
     (.text (some (.jobj exampleReply))) (by decide)⟩

/-- C5: for every valid profile, when the collaborator's reply text is
not valid JSON (`json.loads` raises), the endpoint answers the fixed
parse-failure 500 error — in particular it never answers 200. -/
theorem invalid_json_parse_failure (p : UserProfile)
    (hp : p.disease ∈ validDiseases) :
    post_calculate true p (.text none) =
      (.httpError 500 "Failed to parse AI recommendations.", 1) := by
  unfold post_calculate
  rw [if_pos hp]
  rfl

/-- Witness for C5 at a concrete profile. -/
theorem invalid_json_parse_failure_witness :
    sampleProfile.disease ∈ validDiseases ∧
    post_calculate true sampleProfile (.text none) =
      (.httpError 500 "Failed to parse AI recommendations.", 1) :=
  ⟨by decide, invalid_json_parse_failure sampleProfile (by decide)⟩

/-- Counterexample to C6: with no credential configured, a request
whose profile fails validation (disease `"cancer"`) is answered with
the 422 validation error, not with the fixed configuration error — the
claim's "regardless of the profile content" does not hold. -/
theorem unconfigured_invalid_profile_counterexample :
    post_calculate false invalidProfile (.text none) =
      (.validationError 422, 0) ∧
    (EndpointResult.validationError 422, (0 : ℕ)) ≠
      (EndpointResult.httpError 500
        "Gemini API is not configured. Please set the GEMINI_API_KEY.", 0) :=
  ⟨rfl, by simp⟩

/-- C6 amended: with no credential configured, every request whose
profile passes validation is answered with the fixed configuration
error (HTTP 500), whatever the profile's field values, and the
collaborator is never invoked. -/
theorem unconfigured_returns_config_error (p : UserProfile)
    (collab : CollabResult) (hp : p.disease ∈ validDiseases) :
    post_calculate false p collab =
      (.httpError 500
        "Gemini API is not configured. Please set the GEMINI_API_KEY.", 0) := by
  unfold post_calculate
  rw [if_pos hp]
  rfl

/-- Witness for the amended C6 at a concrete valid profile. -/
theorem unconfigured_returns_config_error_witness :
    sampleProfile.disease ∈ validDiseases ∧
    post_calculate false sampleProfile (.text none) =
      (.httpError 500
        "Gemini API is not configured. Please set the GEMINI_API_KEY.", 0) :=
  ⟨by decide,
   unconfigured_returns_config_error sampleProfile (.text none) (by decide)⟩

/-- C7: for every profile whose disease is one of the seven recognized
values, the rendered prompt contains, as a substring, the instruction
phrase the `disease_instructions` table maps that disease to. -/
theorem prompt_contains_condition_phrase (p : UserProfile)
    (hp : p.disease ∈ validDiseases) :
    ∃ phrase, dictGet disease_instructions p.disease = some phrase ∧
      ∃ pre post, prompt p = pre ++ phrase ++ post := by
  refine ⟨disease_prompt_part p.disease, ?_, ?_⟩
  · simp only [validDiseases, List.mem_cons, List.mem_singleton,
      List.not_mem_nil, or_false] at hp
    rcases hp with h | h | h | h | h | h | h <;> rw [h] <;> rfl
  · refine ⟨"\n    As an expert nutritionist, create a personalized, one-day meal and reminder plan for the following user.\n    The response MUST be unique and in JSON format with the specified schema.\n\n    **JSON Schema:**\n    \x7b\n        \"recommended_meals\": [\"meal_1\", \"meal_2\", \"meal_3\"],\n        \"reminders\": [\"reminder_1\", \"reminder_2\", \"reminder_3\"]\n    \x7d\n\n    **User Profile:**\n    - Age: "
        ++ toString p.age ++ "\n    - Weight: " ++ pyFloatStr p.weight
        ++ " kg\n    - Activity Level: " ++ p.activity_level
        ++ "\n    - Gender: " ++ p.gender
        ++ "\n    - Food Preference: " ++ p.dietary_preferences
        ++ "\n    - Health Goal: The user has \x27" ++ p.disease
        ++ "\x27, so the plan must follow \x27",
      "\x27.\n\n    **Instructions:**\n    1. Generate a list of 3 recommended meals (Breakfast, Lunch, Dinner).\n    2. Generate a list of 3 simple, actionable health reminders.\n    3. Return a JSON object with keys \"recommended_meals\" and \"reminders\".\n    ",
      ?_⟩
    simp only [prompt, String.append_assoc]

/-- Witness for C7 at a concrete profile with disease `"none"`. -/
theorem prompt_contains_condition_phrase_witness :
    sampleProfile.disease ∈ validDiseases ∧
    (∃ phrase, dictGet disease_instructions sampleProfile.disease = some phrase ∧
      ∃ pre post, prompt sampleProfile = pre ++ phrase ++ post) :=
  ⟨by decide, prompt_contains_condition_phrase sampleProfile (by decide)⟩

/-- C8: the generic `"a balanced diet"` fallback of the lookup is
unreachable — for every profile that passes validation the table
lookup finds an entry and `disease_prompt_part` returns that entry,
never the default. -/
theorem lookup_fallback_unreachable (p : UserProfile)
    (hp : p.disease ∈ validDiseases) :
    ∃ v, dictGet disease_instructions p.disease = some v ∧
      disease_prompt_part p.disease = v := by
  simp only [validDiseases, List.mem_cons, List.mem_singleton,
    List.not_mem_nil, or_false] at hp
  rcases hp with h | h | h | h | h | h | h <;> rw [h] <;> exact ⟨_, rfl, rfl⟩

/-- Witness for C8 at a concrete profile with disease `"pcos"`. -/
theorem lookup_fallback_unreachable_witness :
    pcosProfile.disease ∈ validDiseases ∧
    (∃ v, dictGet disease_instructions pcosProfile.disease = some v ∧
      disease_prompt_part pcosProfile.disease = v) :=
  ⟨by decide, lookup_fallback_unreachable pcosProfile (by decide)⟩

/-- C9: two requests carrying the same valid profile receive, when both
succeed, the same `daily_water_ml`, even when the collaborator answered
them differently (and the meal/reminder text therefore differs). -/
theorem identical_profiles_same_water (configured : Bool) (p : UserProfile)
    (c1 c2 : CollabResult) (r1 r2 : Recommendations) (n1 n2 : ℕ)
    (hp : p.disease ∈ validDiseases)
    (h1 : post_calculate configured p c1 = (.ok r1, n1))
    (h2 : post_calculate configured p c2 = (.ok r2, n2)) :
    r1.daily_water_ml = r2.daily_water_ml :=
  (post_calculate_ok_water configured p c1 r1 n1 h1).trans
    (post_calculate_ok_water configured p c2 r2 n2 h2).symm

/-- Witness for C9: the same profile with two different collaborator
replies (different meal lists) still gets the same water value. -/
theorem identical_profiles_same_water_witness :
    sampleProfile.disease ∈ validDiseases ∧
    post_calculate true sampleProfile (.text (some (.jobj exampleReply))) =
      (.ok ⟨sampleProfile.weight * 35, ["a", "b", "c"], ["x", "y", "z"]⟩, 1) ∧
    post_calculate true sampleProfile (.text (some (.jobj []))) =
      (.ok ⟨sampleProfile.weight * 35, [], []⟩, 1) ∧
    (⟨sampleProfile.weight * 35, ["a", "b", "c"], ["x", "y", "z"]⟩ :
        Recommendations).daily_water_ml =
      (⟨sampleProfile.weight * 35, [], []⟩ : Recommendations).daily_water_ml :=
  ⟨by decide, rfl, rfl,
   identical_profiles_same_water true sampleProfile
     (.text (some (.jobj exampleReply))) (.text (some (.jobj [])))
     ⟨sampleProfile.weight * 35, ["a", "b", "c"], ["x", "y", "z"]⟩
     ⟨sampleProfile.weight * 35, [], []⟩ 1 1 (by decide) rfl rfl⟩

/-- C10: for every valid profile, a reply that is valid JSON but not a
JSON object makes `.get` raise an `AttributeError`, which falls into
the generic handler: the endpoint answers the
`"Unexpected error from AI model: ..."` 500 error, which differs from
the parse-failure message. -/
theorem nonobject_json_unexpected_error (p : UserProfile) (j : Json)
    (hp : p.disease ∈ validDiseases) (hj : j.isObj = false) :
    post_calculate true p (.text (some j)) =
      (.httpError 500 ("Unexpected error from AI model: " ++ pyAttrErrorMsg j), 1) ∧
    "Unexpected error from AI model: " ++ pyAttrErrorMsg j ≠
      "Failed to parse AI recommendations." := by
  constructor
  · unfold post_calculate
    rw [if_pos hp]
    cases j with
    | jobj kvs => simp [Json.isObj] at hj
    | jnull => rfl
    | jbool b => rfl
    | jnum m => rfl
    | jstr s => rfl
    | jarr xs => rfl
  · cases j with
    | jobj kvs => simp [Json.isObj] at hj
    | jnull => decide
    | jbool b => simp only [pyAttrErrorMsg, pyTypeName]; decide
    | jnum m => simp only [pyAttrErrorMsg, pyTypeName]; decide
    | jstr s => simp only [pyAttrErrorMsg, pyTypeName]; decide
    | jarr xs => simp only [pyAttrErrorMsg, pyTypeName]; decide

/-- Witness for C10 at a JSON array reply. -/
theorem nonobject_json_unexpected_error_witness :
    sampleProfile.disease ∈ validDiseases ∧
    Json.isObj (.jarr []) = false ∧
    (post_calculate true sampleProfile (.text (some (.jarr []))) =
      (.httpError 500
        ("Unexpected error from AI model: " ++ pyAttrErrorMsg (.jarr [])), 1) ∧
     "Unexpected error from AI model: " ++ pyAttrErrorMsg (.jarr []) ≠
       "Failed to parse AI recommendations.") :=
  ⟨by decide, rfl,
   nonobject_json_unexpected_error sampleProfile (.jarr []) (by decide) rfl⟩
